import Mathlib

/- Verification development for the beauty_ai repository.

   Part 1 embeds the v4 browser client (src/unnamed/part_000, main.js v4):
   its state machine, microphone control and the Float32-to-Int16 PCM
   conversion of the onaudioprocess callback.

   Part 2 models the Flow-Driven Dialogue Orchestrator. The Python sources
   of the orchestrator core (flows.py, flow_manager.py,
   quick_pattern_matcher.py, intent_entity_router.py, orchestrator_v4.py,
   backend2/main.py) are not part of the repository snapshot: only their
   documentation (backend/agents/update_prompt.md, CLAUDE.md) is. Those
   definitions are therefore modelled from the specification, as marked in
   their doc comments. -/

namespace BeautyAI

/-- Client state machine states (STATES in main.js v4, lines 13-18). -/
inductive ClientMode
  | listening
  | processing
  | speaking
  | idle
  deriving DecidableEq

/-- Client-side session of main.js v4: the current state, the system
    active flag, and the microphone stream. `none` models a missing
    audioStream; `some b` models a stream whose audio tracks all have
    `enabled = b`. -/
structure ClientSession where
  currentState : ClientMode
  isSystemActive : Bool
  audioStream : Option Bool

/-- enableMicrophone (main.js v4 lines 85-92): sets `enabled = true` on every
    audio track when a stream is present. -/
def enableMicrophone (cs : ClientSession) : ClientSession :=
  { cs with audioStream := cs.audioStream.map fun _ => true }

/-- disableMicrophone (main.js v4 lines 94-101): sets `enabled = false` on
    every audio track when a stream is present. -/
def disableMicrophone (cs : ClientSession) : ClientSession :=
  { cs with audioStream := cs.audioStream.map fun _ => false }

/-- setState (main.js v4 lines 38-66): a no-op when the state is unchanged;
    otherwise it updates currentState, enables the microphone on entering
    LISTENING and disables it on entering PROCESSING, SPEAKING or IDLE. -/
def setState (cs : ClientSession) (newState : ClientMode) : ClientSession :=
  if cs.currentState = newState then cs
  else
    let cs2 := { cs with currentState := newState }
    match newState with
    | ClientMode.listening => enableMicrophone cs2
    | ClientMode.processing => disableMicrophone cs2
    | ClientMode.speaking => disableMicrophone cs2
    | ClientMode.idle => disableMicrophone cs2

/-- Every microphone track is disabled: there is no stream, or its tracks
    have `enabled = false`. -/
def micTracksOff (cs : ClientSession) : Prop := cs.audioStream ≠ some true

/-- Truncation toward zero on rationals, as JavaScript number-to-integer
    conversion truncates. -/
def truncQ (q : ℚ) : ℤ := if q < 0 then ⌈q⌉ else ⌊q⌋

/-- JavaScript ToInt16, applied on assignment into an Int16Array: truncate
    toward zero, reduce modulo 2^16, and reinterpret in the signed range. -/
def toInt16 (q : ℚ) : ℤ :=
  if 32768 ≤ truncQ q % 65536 then truncQ q % 65536 - 65536
  else truncQ q % 65536

/-- The ideal (wrap-free) conversion: clamp to [-1, 1], scale a negative
    sample by 0x8000 and a non-negative one by 0x7FFF, truncate. -/
def pcm16Ideal (x : ℚ) : ℤ :=
  if max (-1) (min 1 x) < 0 then truncQ (max (-1) (min 1 x) * 32768)
  else truncQ (max (-1) (min 1 x) * 32767)

/-- One sample of the Float32-to-Int16 conversion in onaudioprocess
    (main.js v4 lines 309-314): `s = Math.max(-1, Math.min(1, v))`, then
    `s < 0 ? s * 0x8000 : s * 0x7FFF` stored into an Int16Array. Samples are
    modelled as exact rationals; the clamp and the power-of-two scaling are
    exact in Float32 as well. -/
def pcm16OfSample (x : ℚ) : ℤ :=
  if max (-1) (min 1 x) < 0 then toInt16 (max (-1) (min 1 x) * 32768)
  else toInt16 (max (-1) (min 1 x) * 32767)

/-- The onaudioprocess callback (main.js v4 lines 289-320): it returns
    without sending when the system is inactive or the state is not
    LISTENING; otherwise it converts the chunk to Int16 PCM and sends it
    over the WebSocket when that is open. `none` models that nothing was
    sent. -/
def onAudioProcess (cs : ClientSession) (wsOpen : Bool) (chunk : List ℚ) :
    Option (List ℤ) :=
  if cs.isSystemActive = false ∨ cs.currentState ≠ ClientMode.listening then
    none
  else if wsOpen then some (chunk.map pcm16OfSample) else none

/- ------------------------------------------------------------------ -/
/- Part 2: the Flow-Driven Dialogue Orchestrator, modelled from spec.md -/
/- ------------------------------------------------------------------ -/

/-- Modelled from the spec: the slot names of the slot-filling flows
    (flows.py is absent from the repository snapshot; spec.md section 3). -/
inductive SlotName
  | phone
  | service
  | expert_name
  | date
  | time
  | appointment_code
  | customer_name
  deriving DecidableEq

/-- Modelled from the spec: Turkish mobile phone format 05xxxxxxxxx
    (update_prompt.md line 30, spec.md section 3). -/
def phoneFormat (s : String) : Bool :=
  match s.data with
  | '0' :: '5' :: rest => rest.length == 9 && rest.all Char.isDigit
  | _ => false

/-- Modelled from the spec: date format YYYY-MM-DD
    (update_prompt.md line 26, spec.md section 3). -/
def dateFormat (s : String) : Bool :=
  match s.data with
  | [y1, y2, y3, y4, '-', m1, m2, '-', d1, d2] =>
    [y1, y2, y3, y4, m1, m2, d1, d2].all Char.isDigit
  | _ => false

/-- Modelled from the spec: time format HH:MM
    (update_prompt.md line 27, spec.md section 3). -/
def timeFormat (s : String) : Bool :=
  match s.data with
  | [h1, h2, ':', m1, m2] => [h1, h2, m1, m2].all Char.isDigit
  | _ => false

/-- Modelled from the spec: the per-slot validators (flows.py is absent
    from the snapshot). Phone, date and time have format validators; the
    remaining slots carry free-form text. -/
def slotValid : SlotName → String → Bool
  | SlotName.phone, s => phoneFormat s
  | SlotName.date, s => dateFormat s
  | SlotName.time, s => timeFormat s
  | _, _ => true

/-- Modelled from the spec: the closed intent enumeration
    (intent_entity_router.py is absent from the snapshot). -/
inductive Intent
  | booking
  | cancel
  | query
  | campaign_inquiry
  | chat
  deriving DecidableEq

/-- Modelled from the spec: the ExtractionResult record of one turn
    (spec.md section 3). Entities are a per-slot partial map. -/
structure ExtractionResult where
  intent : Intent
  entities : SlotName → Option String
  confidence : ℚ

/-- Modelled from the spec: the flow types (flows.py is absent from the
    snapshot; spec.md section 3). The absent flow is `Option.none` at the
    session level. -/
inductive FlowType
  | booking
  | cancel
  | query
  | campaign_inquiry
  | chat
  deriving DecidableEq

/-- Modelled from the spec: the static intent-to-flow mapping (spec.md
    section 4.3); the chat intent starts no transactional flow. -/
def intentToFlow : Intent → Option FlowType
  | Intent.booking => some FlowType.booking
  | Intent.cancel => some FlowType.cancel
  | Intent.query => some FlowType.query
  | Intent.campaign_inquiry => some FlowType.campaign_inquiry
  | Intent.chat => none

/-- Modelled from the spec: each flow's required slots in their fixed
    mandatory order (update_prompt.md lines 29-32 and 56; flows.py is
    absent from the snapshot). -/
def requiredSlots : FlowType → List SlotName
  | FlowType.booking =>
    [SlotName.phone, SlotName.service, SlotName.expert_name,
     SlotName.date, SlotName.time]
  | FlowType.cancel => [SlotName.appointment_code]
  | FlowType.query => [SlotName.phone]
  | FlowType.campaign_inquiry => []
  | FlowType.chat => []

/-- Modelled from the spec: the boolean checkpoint markers of a session
    (spec.md section 3; flows.py is absent from the snapshot). -/
structure Markers where
  customer_checked : Bool
  availability_checked : Bool
  confirmed : Bool

/-- All markers unset. -/
def Markers.init : Markers := ⟨false, false, false⟩

/-- The speaker of a history turn. -/
inductive Speaker
  | user
  | assistant
  deriving DecidableEq

/-- Modelled from the spec: the history bound of 20 messages (CLAUDE.md,
    src/unnamed/part_001 line 89; backend2/main.py is absent from the
    snapshot). -/
def HISTORY_LIMIT : Nat := 20

/-- Modelled from the spec: appending one turn to the bounded history keeps
    only the last HISTORY_LIMIT entries, evicting the oldest first. -/
def appendHistory (h : List (Speaker × String)) (entry : Speaker × String) :
    List (Speaker × String) :=
  (h ++ [entry]).drop ((h ++ [entry]).length - HISTORY_LIMIT)

/-- Modelled from the spec: the per-session state (spec.md section 3;
    orchestrator_v4.py is absent from the snapshot). -/
structure SessionState where
  flow_type : Option FlowType
  collected : SlotName → Option String
  markers : Markers
  history : List (Speaker × String)

/-- The empty collected-slot mapping. -/
def clearedCollected : SlotName → Option String := fun _ => none

/-- Modelled from the spec: per-slot merge of the State Merger (spec.md
    section 4.3; its source is absent from the snapshot). The prior value
    is authoritative (first-write-wins); a new value is admitted only when
    the prior slot is absent and the value passes the slot's validator,
    and an invalid value is dropped. -/
def mergeSlot (slot : SlotName) (prior newVal : Option String) :
    Option String :=
  match prior with
  | some v => some v
  | none =>
    match newVal with
    | some v => if slotValid slot v then some v else none
    | none => none

/-- Modelled from the spec: merging an ExtractionResult into the collected
    state, slot by slot. -/
def mergeCollected (c : SlotName → Option String) (e : ExtractionResult) :
    SlotName → Option String :=
  fun s => mergeSlot s (c s) (e.entities s)

/-- Modelled from the spec: the confidence threshold above which a
    conflicting intent abandons the active flow (spec.md section 4.3 names
    a configured threshold). -/
def switchThreshold : ℚ := 7 / 10

/-- Modelled from the spec: the flow-type decision of the State Merger
    (spec.md section 4.3). Returns the new flow and whether the old flow
    was abandoned (state reset). -/
def decideFlow (cur : Option FlowType) (e : ExtractionResult) :
    Option FlowType × Bool :=
  match cur with
  | none => (intentToFlow e.intent, false)
  | some f =>
    match intentToFlow e.intent with
    | some f2 =>
      if f2 ≠ f ∧ switchThreshold < e.confidence then (some f2, true)
      else (some f, false)
    | none => (some f, false)

/-- Modelled from the spec: the tool names of the tool-call contract
    (spec.md section 6). -/
inductive ToolName
  | check_customer
  | create_customer
  | get_customer_appointments
  | list_services
  | list_experts
  | check_campaigns
  | check_availability
  | suggest_alternative_times
  | create_appointment
  | cancel_appointment
  deriving DecidableEq

/-- The terminal side-effecting tools (spec.md section 3 invariants). -/
def isTerminalTool : ToolName → Bool
  | ToolName.create_appointment => true
  | ToolName.cancel_appointment => true
  | _ => false

/-- Modelled from the spec: a tool result with at least a success flag
    (spec.md section 6). -/
structure ToolResult where
  success : Bool
  message : String
  deriving DecidableEq

/-- Modelled from the spec: the actions the Flow Manager can decide
    (spec.md section 4.4; flow_manager.py is absent from the snapshot). -/
inductive Action
  | askForSlot (slot : SlotName)
  | invokeTool (tool : ToolName)
  | requestConfirmation
  | chatReply
  deriving DecidableEq

/-- The first required slot absent from the collected state. -/
def firstMissing (c : SlotName → Option String) (slots : List SlotName) :
    Option SlotName :=
  slots.find? fun s => (c s).isNone

/-- Modelled from the spec: the Flow Manager's transition function `decide`
    (spec.md section 4.4; flow_manager.py is absent from the snapshot).
    Gating tools run as soon as their inputs are ready and their marker is
    unset (check_customer once phone is present, check_availability once
    service, expert, date and time are present); otherwise the first
    missing required slot is asked for; with everything present the flow
    requests confirmation and, once the confirmed marker is set, dispatches
    its terminal tool. Without an active flow no tool is dispatched. -/
def decideAction (st : SessionState) : Action :=
  match st.flow_type with
  | none => Action.chatReply
  | some FlowType.chat => Action.chatReply
  | some FlowType.booking =>
    if (st.collected SlotName.phone).isSome ∧ ¬ st.markers.customer_checked
    then Action.invokeTool ToolName.check_customer
    else if (st.collected SlotName.service).isSome ∧
        (st.collected SlotName.expert_name).isSome ∧
        (st.collected SlotName.date).isSome ∧
        (st.collected SlotName.time).isSome ∧
        ¬ st.markers.availability_checked
    then Action.invokeTool ToolName.check_availability
    else
      match firstMissing st.collected (requiredSlots FlowType.booking) with
      | some s => Action.askForSlot s
      | none =>
        if st.markers.confirmed then Action.invokeTool ToolName.create_appointment
        else Action.requestConfirmation
  | some FlowType.cancel =>
    match firstMissing st.collected (requiredSlots FlowType.cancel) with
    | some s => Action.askForSlot s
    | none =>
      if st.markers.confirmed then Action.invokeTool ToolName.cancel_appointment
      else Action.requestConfirmation
  | some FlowType.query =>
    match st.collected SlotName.phone with
    | none => Action.askForSlot SlotName.phone
    | some _ => Action.invokeTool ToolName.get_customer_appointments
  | some FlowType.campaign_inquiry => Action.invokeTool ToolName.check_campaigns

/-- Modelled from the spec: applying a tool result to the session
    (spec.md sections 4.4 and 4.5; orchestrator_v4.py is absent from the
    snapshot). A terminal tool result clears flow_type, collected and the
    markers; check_customer sets its marker; a successful
    check_availability sets its marker, while a negative one clears the
    date and time slots, keeps the flow, and offers
    suggest_alternative_times as the follow-up action (update_prompt.md
    line 51). -/
def applyToolResult (st : SessionState) (t : ToolName) (res : ToolResult) :
    SessionState × Option Action :=
  if isTerminalTool t then
    ({ st with
        flow_type := none
        collected := clearedCollected
        markers := Markers.init },
     none)
  else
    match t with
    | ToolName.check_customer =>
      ({ st with
          markers := { st.markers with customer_checked := true } },
       none)
    | ToolName.check_availability =>
      if res.success then
        ({ st with
            markers := { st.markers with availability_checked := true } },
         none)
      else
        ({ st with
            collected := fun s =>
              match s with
              | SlotName.date => none
              | SlotName.time => none
              | _ => st.collected s },
         some (Action.invokeTool ToolName.suggest_alternative_times))
    | _ => (st, none)

/-- A quick-path pattern: keywords, canned reply, priority, and whether it
    still fires during an active flow (the goodbye exception). -/
structure QuickPattern where
  keywords : List String
  reply : String
  priority : Nat
  alwaysFires : Bool

/-- Modelled from the spec: the fixed priority-ordered pattern table of
    quick_pattern_matcher.py (absent from the snapshot): goodbye, greeting,
    working hours, location and thanks; only goodbye keeps firing while a
    flow is in progress (spec.md section 4.1). -/
def patternTable : List QuickPattern :=
  [⟨["hoşça kal", "güle güle", "görüşürüz"],
    "İyi günler, görüşmek üzere!", 3, true⟩,
   ⟨["merhaba", "selam", "iyi günler"],
    "İyi günler! Size nasıl yardımcı olabilirim?", 2, false⟩,
   ⟨["çalışma saatleri", "kaçta açıyorsunuz", "kaçta kapatıyorsunuz"],
    "Hafta içi 09:00 - 19:00 arası açığız.", 1, false⟩,
   ⟨["neredesiniz", "adresiniz"],
    "Salonumuz merkez şubemizde hizmet veriyor.", 1, false⟩,
   ⟨["teşekkür", "sağ ol"], "Rica ederim!", 1, false⟩]

/-- An in-progress flow with unfilled required slots blocks the
    non-priority quick patterns (spec.md section 4.1). -/
def flowBusy (st : SessionState) : Bool :=
  match st.flow_type with
  | none => false
  | some f => (requiredSlots f).any fun s => (st.collected s).isNone

/-- Whether the utterance contains any keyword of the pattern. -/
def containsKeyword (text : String) (p : QuickPattern) : Bool :=
  p.keywords.any fun k => text.data.tails.any fun t => k.data.isPrefixOf t

/-- Highest priority wins; ties are broken by table order. -/
def bestPattern (ps : List QuickPattern) : Option QuickPattern :=
  ps.foldl
    (fun best p =>
      match best with
      | none => some p
      | some b => if b.priority < p.priority then some p else some b)
    none

/-- Modelled from the spec: the core of quick_pattern_matcher.match (the
    file is absent from the snapshot), as a function of the utterance and
    the busy-flow flag only. -/
def quickMatchCore (busy : Bool) (text : String) : Option String :=
  let fired := patternTable.filter fun p =>
    containsKeyword text p && (!busy || p.alwaysFires)
  (bestPattern fired).map QuickPattern.reply

/-- Modelled from the spec: quick_pattern_matcher.match over the session,
    reading only whether a flow with unfilled slots is in progress. -/
def quickPatternMatch (text : String) (st : SessionState) : Option String :=
  quickMatchCore (flowBusy st) text

/-- Modelled from the spec: the extractor failure condition (model call
    failed or timed out; spec.md section 7). -/
inductive ExtractionError
  | timeout
  | modelError
  deriving DecidableEq

/-- The generic clarifying reply composed on an extractor failure. -/
def genericClarifyReply : String := "Sizi tam anlayamadım, tekrar eder misiniz?"

/-- Modelled from the spec: the Response Composer for non-tool actions
    (spec.md section 4.6; response_generator.py is absent from the
    snapshot). -/
def composeReply : Action → String
  | Action.askForSlot SlotName.phone => "Telefon numaranızı alabilir miyim?"
  | Action.askForSlot SlotName.service => "Hangi hizmeti istersiniz?"
  | Action.askForSlot SlotName.expert_name => "Hangi uzmanı tercih edersiniz?"
  | Action.askForSlot SlotName.date => "Hangi tarihi istersiniz?"
  | Action.askForSlot SlotName.time => "Saat kaçta istersiniz?"
  | Action.askForSlot SlotName.appointment_code => "Randevu kodunuz nedir?"
  | Action.askForSlot SlotName.customer_name => "Adınızı alabilir miyim?"
  | Action.requestConfirmation => "Bilgileri onaylıyor musunuz?"
  | Action.invokeTool _ => ""
  | Action.chatReply => "Size nasıl yardımcı olabilirim?"

/-- Modelled from the spec: the per-turn driver handle_turn of the
    Orchestrator (spec.md sections 2, 6 and 7; orchestrator_v4.py is absent
    from the snapshot). The quick path answers first; an extractor failure
    falls back to the chat intent with a generic clarifying reply and
    leaves flow_type and collected untouched; otherwise the turn merges the
    extraction, decides an action and executes a decided tool. The
    extractor outcome and the external tool executor are parameters, so the
    driver itself is a total function. -/
def handle_turn (st : SessionState) (utter : String)
    (ext : Except ExtractionError ExtractionResult)
    (exec : ToolName → ToolResult) : SessionState × String :=
  match quickPatternMatch utter st with
  | some reply =>
    ({ st with
        history :=
          appendHistory (appendHistory st.history (Speaker.user, utter))
            (Speaker.assistant, reply) },
     reply)
  | none =>
    match ext with
    | Except.error _ =>
      ({ st with
          history :=
            appendHistory (appendHistory st.history (Speaker.user, utter))
              (Speaker.assistant, genericClarifyReply) },
       genericClarifyReply)
    | Except.ok e =>
      let fl := decideFlow st.flow_type e
      let base := if fl.2 then clearedCollected else st.collected
      let c := mergeCollected base e
      let st1 : SessionState :=
        { flow_type := fl.1
          collected := c
          markers := if fl.2 then Markers.init else st.markers
          history := appendHistory st.history (Speaker.user, utter) }
      match decideAction st1 with
      | Action.invokeTool t =>
        let res := exec t
        let step := applyToolResult st1 t res
        let reply :=
          match step.2 with
          | some _ => "Bu saat maalesef dolu, alternatif önerebilirim."
          | none => res.message
        ({ step.1 with
            history := appendHistory step.1.history (Speaker.assistant, reply) },
         reply)
      | a =>
        let reply := composeReply a
        ({ st1 with
            history := appendHistory st1.history (Speaker.assistant, reply) },
         reply)

/-- A session-level event acting on the collected state: a merged
    extraction, or the reset after a terminal tool result. -/
inductive SessionEvent
  | merged (e : ExtractionResult)
  | reset

/-- The collected state after one event. -/
def stepCollected (c : SlotName → Option String) :
    SessionEvent → (SlotName → Option String)
  | SessionEvent.merged e => mergeCollected c e
  | SessionEvent.reset => clearedCollected

/- Concrete inputs used by the witnesses. -/

/-- The extraction of the utterance of spec.md Scenario B: service, date
    and time, resolved against current_date 2025-11-30. -/
def extractB : ExtractionResult :=
  ⟨Intent.booking,
   fun s =>
     match s with
     | SlotName.service => some "saç kesimi"
     | SlotName.date => some "2025-12-01"
     | SlotName.time => some "14:00"
     | _ => none,
   9 / 10⟩

/-- The session after merging Scenario B's extraction into a fresh session. -/
def stB : SessionState :=
  { flow_type := (decideFlow none extractB).1,
    collected := mergeCollected clearedCollected extractB,
    markers := Markers.init,
    history := [] }

/-- A fully collected, availability-checked and confirmed booking session. -/
def stFull : SessionState :=
  { flow_type := some FlowType.booking,
    collected := fun s =>
      match s with
      | SlotName.phone => some "05321234567"
      | SlotName.service => some "manikür"
      | SlotName.expert_name => some "Ayşe Kaya"
      | SlotName.date => some "2025-12-01"
      | SlotName.time => some "14:00"
      | _ => none,
    markers := ⟨true, true, true⟩,
    history := [] }

/-- A fresh session: no flow, nothing collected, no markers, no history. -/
def initialSession : SessionState :=
  { flow_type := none, collected := clearedCollected,
    markers := Markers.init, history := [] }

/-- A prior collected state holding only a phone number. -/
def cPrior : SlotName → Option String := fun s =>
  match s with
  | SlotName.phone => some "05321234567"
  | _ => none

/-- An extraction carrying a conflicting phone, a fresh valid date, and an
    unnormalized (invalid) time value. -/
def extractC : ExtractionResult :=
  ⟨Intent.booking,
   fun s =>
     match s with
     | SlotName.phone => some "05419876543"
     | SlotName.date => some "2025-12-02"
     | SlotName.time => some "öğlen 2"
     | _ => none,
   1 / 2⟩

end BeautyAI

namespace BeautyAI

theorem truncQ_bounds (q : ℚ) (h1 : -32768 ≤ q) (h2 : q ≤ 32767) :
    -32768 ≤ truncQ q ∧ truncQ q ≤ 32767 := by
  unfold truncQ
  split
  · constructor
    · have hq : ((-32768 : ℤ) : ℚ) ≤ q := by exact_mod_cast h1
      have := Int.le_ceil q
      have : ((-32768 : ℤ) : ℚ) ≤ (⌈q⌉ : ℚ) := le_trans hq this
      exact_mod_cast this
    · exact Int.ceil_le.mpr (by exact_mod_cast h2)
  · constructor
    · exact Int.le_floor.mpr (by exact_mod_cast h1)
    · have := Int.floor_le q
      have : ((⌊q⌋ : ℤ) : ℚ) ≤ ((32767 : ℤ) : ℚ) :=
        le_trans this (by exact_mod_cast h2)
      exact_mod_cast this

theorem toInt16_eq_truncQ (q : ℚ) (h1 : -32768 ≤ truncQ q)
    (h2 : truncQ q ≤ 32767) : toInt16 q = truncQ q := by
  unfold toInt16
  split <;> omega

/-- Claim C10: the client PCM conversion is range-safe. Every Float32 input
    sample is clamped to [-1, 1] and scaled (by 0x8000 when negative, by
    0x7FFF otherwise), so every emitted Int16 sample lies in
    [-32768, 32767] and the ToInt16 wrap never fires: the stored value
    equals the wrap-free conversion. -/
theorem pcm16_range (x : ℚ) :
    -32768 ≤ pcm16OfSample x ∧ pcm16OfSample x ≤ 32767 ∧
    pcm16OfSample x = pcm16Ideal x := by
  have hs1 : (-1 : ℚ) ≤ max (-1) (min 1 x) := le_max_left _ _
  have hs2 : max (-1) (min 1 x) ≤ 1 := max_le (by norm_num) (min_le_left _ _)
  unfold pcm16OfSample pcm16Ideal
  by_cases hneg : max (-1) (min 1 x) < 0
  · simp only [if_pos hneg]
    have hq1 : (-32768 : ℚ) ≤ max (-1) (min 1 x) * 32768 := by nlinarith
    have hq2 : max (-1) (min 1 x) * 32768 ≤ 32767 := by nlinarith
    have hb := truncQ_bounds _ hq1 hq2
    rw [toInt16_eq_truncQ _ hb.1 hb.2]
    exact ⟨hb.1, hb.2, rfl⟩
  · simp only [if_neg hneg]
    have h0 : (0 : ℚ) ≤ max (-1) (min 1 x) := le_of_not_lt hneg
    have hq1 : (-32768 : ℚ) ≤ max (-1) (min 1 x) * 32767 := by nlinarith
    have hq2 : max (-1) (min 1 x) * 32767 ≤ 32767 := by nlinarith
    have hb := truncQ_bounds _ hq1 hq2
    rw [toInt16_eq_truncQ _ hb.1 hb.2]
    exact ⟨hb.1, hb.2, rfl⟩

/-- Claim C9: the v4 browser client sends no audio data from the
    audio-process callback while the system is inactive or the state is
    PROCESSING, SPEAKING or IDLE (anything but LISTENING), and every
    transition into PROCESSING, SPEAKING or IDLE disables all microphone
    tracks — so the client never streams its own TTS playback back to the
    server. -/
theorem client_no_send_outside_listening (cs : ClientSession) (wsOpen : Bool)
    (chunk : List ℚ) (m : ClientMode)
    (hsend : cs.isSystemActive = false ∨ cs.currentState ≠ ClientMode.listening)
    (hm : m = ClientMode.processing ∨ m = ClientMode.speaking ∨
      m = ClientMode.idle)
    (hchange : cs.currentState ≠ m) :
    onAudioProcess cs wsOpen chunk = none ∧ micTracksOff (setState cs m) := by
  constructor
  · unfold onAudioProcess
    rw [if_pos hsend]
  · unfold setState
    rw [if_neg hchange]
    rcases hm with rfl | rfl | rfl <;>
      · unfold micTracksOff disableMicrophone
        cases cs.audioStream <;> simp

/-- Claim C9 witness: a concrete client session in SPEAKING state sends
    nothing from the audio callback, and the transition into PROCESSING
    turns the microphone tracks off. -/
theorem client_no_send_outside_listening_witness :
    onAudioProcess ⟨ClientMode.speaking, true, some true⟩ true [1 / 2] = none ∧
      micTracksOff
        (setState ⟨ClientMode.speaking, true, some true⟩ ClientMode.processing) :=
  client_no_send_outside_listening ⟨ClientMode.speaking, true, some true⟩ true
    [1 / 2] ClientMode.processing (Or.inr (by decide)) (Or.inl rfl) (by decide)

theorem mergeCollected_valid (c : SlotName → Option String)
    (e : ExtractionResult)
    (hc : ∀ s v, c s = some v → slotValid s v = true) :
    ∀ s v, mergeCollected c e s = some v → slotValid s v = true := by
  intro s v h
  unfold mergeCollected mergeSlot at h
  cases hcs : c s with
  | some w =>
    rw [hcs] at h
    injection h with h2
    subst h2
    exact hc s w hcs
  | none =>
    rw [hcs] at h
    cases hes : e.entities s with
    | none => rw [hes] at h; exact absurd h (by simp)
    | some w =>
      rw [hes] at h
      dsimp only at h
      by_cases hv : slotValid s w = true
      · rw [if_pos hv] at h
        injection h with h2
        subst h2
        exact hv
      · rw [if_neg hv] at h
        exact absurd h (by simp)

/-- Claim C2: starting from an empty session, over every sequence of
    merge/reset events, a value stored in `collected` always passes its
    slot's validator; and an extracted entity that fails its validator is
    dropped, leaving the slot missing. -/
theorem collected_always_valid :
    (∀ (evs : List SessionEvent) (s : SlotName) (v : String),
        (evs.foldl stepCollected clearedCollected) s = some v →
        slotValid s v = true) ∧
    (∀ (c : SlotName → Option String) (e : ExtractionResult) (s : SlotName)
        (v : String), c s = none → e.entities s = some v →
        slotValid s v = false → mergeCollected c e s = none) := by
  constructor
  · have main : ∀ (evs : List SessionEvent) (c : SlotName → Option String),
        (∀ s v, c s = some v → slotValid s v = true) →
        ∀ s v, (evs.foldl stepCollected c) s = some v →
        slotValid s v = true := by
      intro evs
      induction evs with
      | nil => intro c hc; exact hc
      | cons ev rest ih =>
        intro c hc
        simp only [List.foldl_cons]
        cases ev with
        | merged e => exact ih _ (mergeCollected_valid c e hc)
        | reset =>
          exact ih _
            (by intro s v hsv; simp [stepCollected, clearedCollected] at hsv)
    intro evs s v
    exact main evs clearedCollected
      (by intro s v hsv; simp [clearedCollected] at hsv) s v
  · intro c e s v hc he hv
    unfold mergeCollected mergeSlot
    rw [hc, he]
    dsimp only
    rw [if_neg (by simp [hv])]

/-- Claim C3: the state merge is first-write-wins per slot. A slot already
    present in the prior collected state keeps its value under merge
    (idempotent on that slot), and a new value is written exactly when the
    prior value is absent and the new value passes validation. -/
theorem merge_first_write_wins (c : SlotName → Option String)
    (e : ExtractionResult) (s : SlotName) (v : String) :
    (c s = some v → mergeCollected c e s = some v) ∧
    (c s = none →
      (mergeCollected c e s = some v ↔
        e.entities s = some v ∧ slotValid s v = true)) := by
  constructor
  · intro h
    unfold mergeCollected mergeSlot
    rw [h]
  · intro h
    unfold mergeCollected mergeSlot
    rw [h]
    cases hes : e.entities s with
    | none => simp
    | some w =>
      dsimp only
      by_cases hv : slotValid s w = true
      · rw [if_pos hv]
        constructor
        · intro hw
          injection hw with hw2
          subst hw2
          exact ⟨rfl, hv⟩
        · rintro ⟨h1, h2⟩
          injection h1 with h1
          subst h1
          rfl
      · rw [if_neg hv]
        constructor
        · intro hcon; exact absurd hcon (by simp)
        · rintro ⟨h1, h2⟩
          injection h1 with h1
          subst h1
          exact absurd h2 hv

/-- Claim C3 witness: merging a conflicting phone into a state that already
    holds one leaves the stored phone unchanged, while a fresh valid date
    is written. -/
theorem merge_first_write_wins_witness :
    mergeCollected cPrior extractC SlotName.phone = some "05321234567" ∧
    mergeCollected cPrior extractC SlotName.date = some "2025-12-02" :=
  ⟨(merge_first_write_wins cPrior extractC SlotName.phone "05321234567").1 rfl,
   ((merge_first_write_wins cPrior extractC SlotName.date "2025-12-02").2
      rfl).mpr ⟨rfl, by decide⟩⟩

/-- Claim C2 witness: a validly extracted date survives a one-event trace
    with its validator holding, and the invalid time value of a concrete
    extraction is dropped, leaving the slot missing. -/
theorem collected_always_valid_witness :
    slotValid SlotName.date "2025-12-01" = true ∧
    mergeCollected cPrior extractC SlotName.time = none :=
  ⟨collected_always_valid.1 [SessionEvent.merged extractB] SlotName.date
      "2025-12-01" (by decide),
   collected_always_valid.2 cPrior extractC SlotName.time "öğlen 2" rfl rfl
      (by decide)⟩

/-- Claim C1: a terminal side-effecting tool (create_appointment or
    cancel_appointment) is dispatched only when the confirmed marker is set
    immediately beforehand; immediately after a terminal tool result the
    session's flow_type and collected are cleared; without an active flow
    no tool at all is dispatched; hence right after a terminal tool result
    the next decision is a plain chat reply, so a repeated confirmation
    cannot trigger a second dispatch. -/
theorem terminal_tool_once (st : SessionState) (t : ToolName)
    (res : ToolResult) :
    (decideAction st = Action.invokeTool t → isTerminalTool t = true →
      st.markers.confirmed = true) ∧
    (isTerminalTool t = true →
      (applyToolResult st t res).1.flow_type = none ∧
      ∀ s, (applyToolResult st t res).1.collected s = none) ∧
    (st.flow_type = none → decideAction st ≠ Action.invokeTool t) ∧
    (isTerminalTool t = true →
      decideAction (applyToolResult st t res).1 = Action.chatReply) := by
  refine ⟨?_, ?_, ?_, ?_⟩
  · intro hd hterm
    unfold decideAction at hd
    rcases st with ⟨ft, c, m, hist⟩
    dsimp only at hd ⊢
    cases ft with
    | none =>
      dsimp only at hd
      exact absurd hd (by simp)
    | some f =>
      cases f with
      | chat =>
        dsimp only at hd
        exact absurd hd (by simp)
      | booking =>
        dsimp only at hd
        split at hd
        · injection hd with h2
          subst h2
          exact absurd hterm (by simp [isTerminalTool])
        · split at hd
          · injection hd with h2
            subst h2
            exact absurd hterm (by simp [isTerminalTool])
          · split at hd
            · exact absurd hd (by simp)
            · split at hd
              · assumption
              · exact absurd hd (by simp)
      | cancel =>
        dsimp only at hd
        split at hd
        · exact absurd hd (by simp)
        · split at hd
          · assumption
          · exact absurd hd (by simp)
      | query =>
        dsimp only at hd
        split at hd
        · exact absurd hd (by simp)
        · injection hd with h2
          subst h2
          exact absurd hterm (by simp [isTerminalTool])
      | campaign_inquiry =>
        dsimp only at hd
        injection hd with h2
        subst h2
        exact absurd hterm (by simp [isTerminalTool])
  · intro hterm
    unfold applyToolResult
    rw [if_pos hterm]
    exact ⟨rfl, fun s => rfl⟩
  · intro h0 hd
    unfold decideAction at hd
    rw [h0] at hd
    exact absurd hd (by simp)
  · intro hterm
    unfold applyToolResult
    rw [if_pos hterm]
    rfl

/-- Claim C1 witness: the fully confirmed booking session dispatches
    create_appointment with its confirmed marker set; after the terminal
    result the flow and the collected slots are cleared and the next
    decision is a chat reply. -/
theorem terminal_tool_once_witness :
    stFull.markers.confirmed = true ∧
    ((applyToolResult stFull ToolName.create_appointment ⟨true, "ok"⟩).1.flow_type
        = none ∧
      ∀ s, (applyToolResult stFull ToolName.create_appointment
        ⟨true, "ok"⟩).1.collected s = none) ∧
    decideAction (applyToolResult stFull ToolName.create_appointment
        ⟨true, "ok"⟩).1 = Action.chatReply :=
  ⟨(terminal_tool_once stFull ToolName.create_appointment ⟨true, "ok"⟩).1
      (by decide) rfl,
   (terminal_tool_once stFull ToolName.create_appointment ⟨true, "ok"⟩).2.1 rfl,
   (terminal_tool_once stFull ToolName.create_appointment ⟨true, "ok"⟩).2.2.2
      rfl⟩

/-- Claim C4: in a booking flow whose collected state holds service, date
    and time but neither phone nor expert_name, the Flow Manager asks for
    the phone slot: the required slots are iterated in their fixed
    mandatory order and the first absent one is asked for. -/
theorem booking_asks_phone_first (st : SessionState)
    (hf : st.flow_type = some FlowType.booking)
    (hp : st.collected SlotName.phone = none)
    (he : st.collected SlotName.expert_name = none)
    (hs : (st.collected SlotName.service).isSome = true)
    (hd : (st.collected SlotName.date).isSome = true)
    (ht : (st.collected SlotName.time).isSome = true) :
    decideAction st = Action.askForSlot SlotName.phone := by
  unfold decideAction
  rw [hf]
  dsimp only
  rw [if_neg (by simp [hp]), if_neg (by simp [he])]
  have hfm : firstMissing st.collected (requiredSlots FlowType.booking)
      = some SlotName.phone := by
    unfold firstMissing requiredSlots
    simp [List.find?, hp]
  rw [hfm]

/-- Claim C4 witness: merging the Scenario B extraction
    (service, date 2025-12-01, time 14:00) into a fresh session yields a
    booking session whose next action asks for the phone. -/
theorem booking_asks_phone_first_witness :
    decideAction stB = Action.askForSlot SlotName.phone :=
  booking_asks_phone_first stB rfl rfl rfl (by decide) (by decide) (by decide)

/-- Claim C5: on an extractor failure (model call failed or timed out) the
    turn recovers locally: handle_turn is a total function that falls back
    to a generic chat reply and leaves the session's flow_type unchanged
    (an active flow stays active, an absent one stays absent). -/
theorem extractor_failure_keeps_flow (st : SessionState) (utter : String)
    (err : ExtractionError) (exec : ToolName → ToolResult) :
    (handle_turn st utter (Except.error err) exec).1.flow_type
      = st.flow_type := by
  unfold handle_turn
  cases hq : quickPatternMatch utter st <;> rfl

/-- Claim C6: a failed availability check in a booking flow does not
    abandon the flow: the date and time slots are cleared, flow_type stays
    Booking, and the follow-up action asks for date/time or invokes
    suggest_alternative_times. -/
theorem availability_failure_keeps_flow (st : SessionState) (res : ToolResult)
    (hf : st.flow_type = some FlowType.booking)
    (hres : res.success = false) :
    (applyToolResult st ToolName.check_availability res).1.flow_type
        = some FlowType.booking ∧
    (applyToolResult st ToolName.check_availability res).1.collected
        SlotName.date = none ∧
    (applyToolResult st ToolName.check_availability res).1.collected
        SlotName.time = none ∧
    ((applyToolResult st ToolName.check_availability res).2
        = some (Action.invokeTool ToolName.suggest_alternative_times) ∨
      (applyToolResult st ToolName.check_availability res).2
        = some (Action.askForSlot SlotName.date) ∨
      (applyToolResult st ToolName.check_availability res).2
        = some (Action.askForSlot SlotName.time)) := by
  unfold applyToolResult
  rw [if_neg (by simp [isTerminalTool])]
  dsimp only
  rw [if_neg (by simp [hres])]
  exact ⟨hf, rfl, rfl, Or.inl rfl⟩

/-- Claim C6 witness: the concrete confirmed booking session, on a negative
    availability result, keeps the booking flow, loses its date and time
    slots, and is offered suggest_alternative_times. -/
theorem availability_failure_keeps_flow_witness :
    (applyToolResult stFull ToolName.check_availability ⟨false, "dolu"⟩).1.flow_type
        = some FlowType.booking ∧
    (applyToolResult stFull ToolName.check_availability ⟨false, "dolu"⟩).1.collected
        SlotName.date = none ∧
    (applyToolResult stFull ToolName.check_availability ⟨false, "dolu"⟩).1.collected
        SlotName.time = none ∧
    ((applyToolResult stFull ToolName.check_availability ⟨false, "dolu"⟩).2
        = some (Action.invokeTool ToolName.suggest_alternative_times) ∨
      (applyToolResult stFull ToolName.check_availability ⟨false, "dolu"⟩).2
        = some (Action.askForSlot SlotName.date) ∨
      (applyToolResult stFull ToolName.check_availability ⟨false, "dolu"⟩).2
        = some (Action.askForSlot SlotName.time)) :=
  availability_failure_keeps_flow stFull ⟨false, "dolu"⟩ rfl rfl

/-- Claim C7: the Quick-Pattern Matcher is a total, pure function of the
    utterance and the session: it is deterministic (two calls on the same
    input and state agree) and it reads nothing of the session beyond
    whether a flow with unfilled required slots is in progress; it mutates
    no state and performs no call, being a plain function into
    Option String. -/
theorem quick_pattern_pure (text : String) (s1 s2 : SessionState)
    (h : flowBusy s1 = flowBusy s2) :
    quickPatternMatch text s1 = quickPatternMatch text s2 ∧
    quickPatternMatch text s1 = quickPatternMatch text s1 := by
  unfold quickPatternMatch
  rw [h]
  exact ⟨rfl, rfl⟩

/-- Claim C7 witness: two sessions differing in history but agreeing on the
    busy-flow flag give the same quick-pattern result for "merhaba". -/
theorem quick_pattern_pure_witness :
    quickPatternMatch "merhaba" initialSession
      = quickPatternMatch "merhaba"
          { initialSession with history := [(Speaker.user, "selam")] } ∧
    quickPatternMatch "merhaba" initialSession
      = quickPatternMatch "merhaba" initialSession :=
  quick_pattern_pure "merhaba" initialSession
    { initialSession with history := [(Speaker.user, "selam")] } rfl

/-- Claim C8: the session history is a bounded ordered sequence of
    (speaker, text) turns: appending never exceeds HISTORY_LIMIT = 20
    entries, the post-append history is a suffix of the pre-append history
    plus the new entry (oldest evicted first, relative order preserved),
    and any sequence of appends from the empty history stays within the
    bound. -/
theorem history_bounded (h : List (Speaker × String)) (e : Speaker × String)
    (es : List (Speaker × String)) :
    (appendHistory h e).length ≤ HISTORY_LIMIT ∧
    appendHistory h e <:+ h ++ [e] ∧
    (es.foldl appendHistory []).length ≤ HISTORY_LIMIT := by
  refine ⟨?_, ?_, ?_⟩
  · unfold appendHistory HISTORY_LIMIT
    rw [List.length_drop]
    omega
  · unfold appendHistory
    exact List.drop_suffix _ _
  · have step : ∀ (l : List (Speaker × String)) (x : Speaker × String),
        (appendHistory l x).length ≤ HISTORY_LIMIT := by
      intro l x
      unfold appendHistory HISTORY_LIMIT
      rw [List.length_drop]
      omega
    have main : ∀ (es2 start : List (Speaker × String)),
        start.length ≤ HISTORY_LIMIT →
        (es2.foldl appendHistory start).length ≤ HISTORY_LIMIT := by
      intro es2
      induction es2 with
      | nil => intro start hstart; exact hstart
      | cons a rest ih =>
        intro start hstart
        simp only [List.foldl_cons]
        exact ih _ (step start a)
    exact main es [] (by simp [HISTORY_LIMIT])

end BeautyAI
